import Mathlib

/-!
Formal model of the rig-fastembed adapter (src/rig-fastembed/src/lib.rs).

The adapter wraps an external embedding runtime (the fastembed crate) behind
the generic embedding-provider interface of the rig framework.  We embed the
adapter's own code shallowly:

* `FastembedModel` is the closed enumeration of supported model identifiers
  (re-exported from the fastembed crate; the variants are exactly those named
  in `fetch_model_ndims`).
* `fetch_model_ndims` is a direct transcription of the registry function.
* The external runtime value `TextEmbedding` is opaque to the adapter; the
  adapter only calls its `embed` method.  We therefore model a
  `TextEmbedding` as the function the adapter observes: a batch-embed map
  from a list of strings to either a backend error or a list of native
  float vectors.  The native (32-bit) and provider-contract (64-bit)
  floating-point value spaces are opaque type parameters `F32` and `F64`;
  the `f as f64` widening cast of the source, which is exact on every f32,
  is an arbitrary function `f32_to_f64 : F32 → F64` supplied as a parameter.
* Construction of a `TextEmbedding` (`TextEmbedding::try_new`,
  `TextEmbedding::try_new_from_user_defined`) happens in the external crate;
  the adapter's constructors take its outcome.  The `.unwrap()` in the
  source turns a construction error into a panic: we model the adapter's
  constructors as returning `Option`, with `none` standing for the panic
  (no error value ever reaches the caller).
* `Except` models Rust's `Result`; `EmbeddingError` models the rig
  framework's error enum (only the variants relevant to this adapter).
-/

/-- The closed enumeration of fastembed model identifiers, as matched
exhaustively in `fetch_model_ndims`. -/
inductive FastembedModel where
  | AllMiniLML6V2
  | AllMiniLML6V2Q
  | AllMiniLML12V2
  | AllMiniLML12V2Q
  | BGESmallENV15
  | BGESmallENV15Q
  | ParaphraseMLMiniLML12V2Q
  | ParaphraseMLMiniLML12V2
  | MultilingualE5Small
  | BGESmallZHV15
  | ClipVitB32
  | BGEBaseENV15
  | BGEBaseENV15Q
  | NomicEmbedTextV1
  | NomicEmbedTextV15
  | NomicEmbedTextV15Q
  | ParaphraseMLMpnetBaseV2
  | MultilingualE5Base
  | GTEBaseENV15
  | GTEBaseENV15Q
  | JinaEmbeddingsV2BaseCode
  | BGELargeENV15
  | BGELargeENV15Q
  | MultilingualE5Large
  | MxbaiEmbedLargeV1
  | MxbaiEmbedLargeV1Q
  | GTELargeENV15
  | GTELargeENV15Q
deriving DecidableEq, Repr

/-- Transcription of `fetch_model_ndims` (src/rig-fastembed/src/lib.rs,
lines 146-176): an exhaustive match, no default branch, grouping the model
identifiers into the four width buckets 384, 512, 768, 1024. -/
def fetch_model_ndims (model : FastembedModel) : Nat :=
  match model with
  | .AllMiniLML6V2
  | .AllMiniLML6V2Q
  | .AllMiniLML12V2
  | .AllMiniLML12V2Q
  | .BGESmallENV15
  | .BGESmallENV15Q
  | .ParaphraseMLMiniLML12V2Q
  | .ParaphraseMLMiniLML12V2
  | .MultilingualE5Small => 384
  | .BGESmallZHV15
  | .ClipVitB32 => 512
  | .BGEBaseENV15
  | .BGEBaseENV15Q
  | .NomicEmbedTextV1
  | .NomicEmbedTextV15
  | .NomicEmbedTextV15Q
  | .ParaphraseMLMpnetBaseV2
  | .MultilingualE5Base
  | .GTEBaseENV15
  | .GTEBaseENV15Q
  | .JinaEmbeddingsV2BaseCode => 768
  | .BGELargeENV15
  | .BGELargeENV15Q
  | .MultilingualE5Large
  | .MxbaiEmbedLargeV1
  | .MxbaiEmbedLargeV1Q
  | .GTELargeENV15
  | .GTELargeENV15Q => 1024

/-- A backend error from the fastembed runtime, as the adapter observes it:
the adapter only ever calls `err.to_string()`, so the model keeps just the
rendered message. -/
structure BackendError where
  message : String
deriving DecidableEq, Repr

/-- The rig framework's `EmbeddingError` enum (the adapter constructs only
`ProviderError`; the other string-carrying variants are kept so that the
error kind chosen by the adapter is observable). -/
inductive EmbeddingError where
  | DocumentError (msg : String)
  | ResponseError (msg : String)
  | ProviderError (msg : String)
deriving DecidableEq, Repr

/-- The rig framework's `Embedding` record: the original document paired
with its vector in the provider contract's (64-bit) float space `F64`. -/
structure Embedding (F64 : Type) where
  document : String
  vec : List F64
deriving Repr, DecidableEq

/-- The external runtime handle, seen through the only method the adapter
calls: `embed` maps a batch of strings to a parallel list of native (32-bit)
float vectors or a backend error. -/
structure TextEmbedding (F32 : Type) where
  embed : List String → Except BackendError (List (List F32))

/-- The fastembed `InitOptions` the adapter builds:
`InitOptions::new(model).with_show_download_progress(true)`. -/
structure InitOptions where
  model_name : FastembedModel
  show_download_progress : Bool
deriving DecidableEq, Repr

/-- Transcription of `InitOptions::new` (fastembed defaults progress
reporting off; the adapter switches it on explicitly). -/
def InitOptions.new (model : FastembedModel) : InitOptions :=
  { model_name := model, show_download_progress := false }

/-- Transcription of `InitOptions::with_show_download_progress`. -/
def InitOptions.with_show_download_progress (o : InitOptions) (b : Bool) :
    InitOptions :=
  { o with show_download_progress := b }

/-- The fastembed `InitOptionsUserDefined`; the adapter passes
`InitOptionsUserDefined::default()` and never reads it, so the model keeps
no fields. -/
structure InitOptionsUserDefined where
deriving DecidableEq, Repr

/-- Transcription of `InitOptionsUserDefined::default()`. -/
def InitOptionsUserDefined.default : InitOptionsUserDefined := {}

/-- The fastembed `ModelInfo` as read by the adapter: only its `model`
field is consulted. -/
structure ModelInfo where
  model : FastembedModel
deriving DecidableEq, Repr

/-- The adapter's `EmbeddingModel` struct: the shared runtime handle, the
model identifier, and the stored dimensionality.  (The `Arc` of the source
is shared-ownership plumbing with no observable effect on values.) -/
structure EmbeddingModel (F32 : Type) where
  embedder : TextEmbedding F32
  model : FastembedModel
  ndims : Nat

/-- The associated constant `MAX_DOCUMENTS` of the provider trait
implementation (src/rig-fastembed/src/lib.rs, line 115). -/
def EmbeddingModel.MAX_DOCUMENTS : Nat := 1024

/-- Transcription of `EmbeddingModel::new` (lines 78-91).  The external
outcome of `TextEmbedding::try_new` on the options the adapter builds is
the parameter `try_new`; the source calls `.unwrap()` on it, so a
construction error is a panic, modelled as `none`: no error value is ever
returned to the caller. -/
def EmbeddingModel.new {F32 : Type}
    (try_new : InitOptions → Except BackendError (TextEmbedding F32))
    (model : FastembedModel) (ndims : Nat) : Option (EmbeddingModel F32) :=
  match try_new ((InitOptions.new model).with_show_download_progress true) with
  | .error _ => none
  | .ok embedder => some { embedder := embedder, model := model, ndims := ndims }

/-- The fastembed `UserDefinedEmbeddingModel` is opaque to the adapter
(passed through unchanged), so it is a type parameter; transcription of
`EmbeddingModel::new_from_user_defined` (lines 93-111), with the external
outcome of `TextEmbedding::try_new_from_user_defined` as the parameter
`try_new_ud`.  As in `new`, `.unwrap()` makes construction failure a panic
(`none`). -/
def EmbeddingModel.new_from_user_defined {F32 UDM : Type}
    (try_new_ud : UDM → InitOptionsUserDefined →
      Except BackendError (TextEmbedding F32))
    (user_defined_model : UDM) (ndims : Nat) (model_info : ModelInfo) :
    Option (EmbeddingModel F32) :=
  match try_new_ud user_defined_model InitOptionsUserDefined.default with
  | .error _ => none
  | .ok embedder =>
    some { embedder := embedder, model := model_info.model, ndims := ndims }

/-- Transcription of `embed_texts` (lines 121-142): collect the documents,
call the backend, translate a backend error into
`EmbeddingError::ProviderError(err.to_string())`, and otherwise zip the
documents with the returned vectors, widening each native float via
`f32_to_f64` (the `f as f64` cast of the source). -/
def EmbeddingModel.embed_texts {F32 F64 : Type} (f32_to_f64 : F32 → F64)
    (self : EmbeddingModel F32) (documents : List String) :
    Except EmbeddingError (List (Embedding F64)) := do
  let documents_as_strings : List String := documents
  let documents_as_vec ← (self.embedder.embed documents_as_strings).mapError
    (fun err => EmbeddingError.ProviderError err.message)
  let docs := (documents_as_strings.zip documents_as_vec).map
    (fun p => { document := p.1, vec := p.2.map f32_to_f64 })
  return docs

/-- The adapter's `Client` struct (stateless). -/
structure Client where
deriving DecidableEq, Repr

/-- Transcription of `Client::new`. -/
def Client.new : Client := {}

/-- Transcription of `Client::embedding_model` (lines 40-44): look the
dimensionality up in the registry, then construct the model object. -/
def Client.embedding_model {F32 : Type} (_self : Client)
    (try_new : InitOptions → Except BackendError (TextEmbedding F32))
    (model : FastembedModel) : Option (EmbeddingModel F32) :=
  let ndims := fetch_model_ndims model
  EmbeddingModel.new try_new model ndims

/-- Claim C2: `fetch_model_ndims` is a total deterministic function on the
closed enumeration (total and deterministic by construction in this model),
every value is one of 384, 512, 768, 1024 (hence never 0), and in
particular `AllMiniLML6V2 ↦ 384` and `BGELargeENV15 ↦ 1024`. -/
theorem fetch_model_ndims_spec :
    (∀ m : FastembedModel,
      fetch_model_ndims m = 384 ∨ fetch_model_ndims m = 512 ∨
      fetch_model_ndims m = 768 ∨ fetch_model_ndims m = 1024) ∧
    (∀ m : FastembedModel, fetch_model_ndims m ≠ 0) ∧
    fetch_model_ndims FastembedModel.AllMiniLML6V2 = 384 ∧
    fetch_model_ndims FastembedModel.BGELargeENV15 = 1024 := by
  refine ⟨fun m => ?_, fun m => ?_, rfl, rfl⟩
  · cases m <;> simp [fetch_model_ndims]
  · cases m <;> simp [fetch_model_ndims]

/-- Unfolding lemma: when the backend call succeeds, `embed_texts` returns
the zip of documents with vectors, each vector widened element-wise. -/
theorem EmbeddingModel.embed_texts_eq_ok {F32 F64 : Type} (f32_to_f64 : F32 → F64)
    (self : EmbeddingModel F32) (documents : List String) (vs : List (List F32))
    (h : self.embedder.embed documents = .ok vs) :
    self.embed_texts f32_to_f64 documents =
      .ok ((documents.zip vs).map
        (fun p => { document := p.1, vec := p.2.map f32_to_f64 })) := by
  simp [EmbeddingModel.embed_texts, h, Except.mapError]

/-- Unfolding lemma: when the backend call fails, `embed_texts` returns the
`ProviderError` built from the backend error's rendered message. -/
theorem EmbeddingModel.embed_texts_eq_error {F32 F64 : Type} (f32_to_f64 : F32 → F64)
    (self : EmbeddingModel F32) (documents : List String) (e : BackendError)
    (h : self.embedder.embed documents = .error e) :
    self.embed_texts f32_to_f64 documents =
      .error (EmbeddingError.ProviderError e.message) := by
  simp [EmbeddingModel.embed_texts, h, Except.mapError]

/-- Claim C1: for every batch of N input texts, if the backend embed call
succeeds with a parallel list of N vectors each of the model's declared
width, then `embed_texts` returns `Ok` with exactly N results whose
document fields are the input texts in input order (`rs.map document =
documents` says the i-th result's document equals the i-th input) and each
of whose vectors has length `ndims()`. -/
theorem embed_texts_preserves_count_order_ndims {F32 F64 : Type}
    (f32_to_f64 : F32 → F64) (self : EmbeddingModel F32)
    (documents : List String) (vs : List (List F32))
    (hok : self.embedder.embed documents = .ok vs)
    (hlen : vs.length = documents.length)
    (hdim : ∀ v ∈ vs, v.length = self.ndims) :
    ∃ rs, self.embed_texts f32_to_f64 documents = .ok rs ∧
      rs.length = documents.length ∧
      rs.map Embedding.document = documents ∧
      ∀ r ∈ rs, r.vec.length = self.ndims := by
  rw [EmbeddingModel.embed_texts_eq_ok f32_to_f64 self documents vs hok]
  refine ⟨_, rfl, ?_, ?_, ?_⟩
  · simp [List.length_zip, hlen]
  · rw [List.map_map]
    exact List.map_fst_zip documents vs (le_of_eq hlen.symm)
  · intro r hr
    obtain ⟨p, hp, rfl⟩ := List.mem_map.mp hr
    simpa using hdim p.2 (List.of_mem_zip hp).2

/-- Claim C3: if the backend embed call fails with error `e`, `embed_texts`
returns exactly `Err(ProviderError(e.to_string()))` — the provider-error
kind carrying the backend message — and no `Ok` value (hence no partial
list of embeddings); when the backend message is non-empty, so is the
payload. -/
theorem embed_texts_provider_error {F32 F64 : Type}
    (f32_to_f64 : F32 → F64) (self : EmbeddingModel F32)
    (documents : List String) (e : BackendError)
    (herr : self.embedder.embed documents = .error e) :
    self.embed_texts f32_to_f64 documents =
      .error (EmbeddingError.ProviderError e.message) ∧
    (∀ rs, self.embed_texts f32_to_f64 documents ≠ .ok rs) ∧
    (e.message ≠ "" →
      ∃ msg, self.embed_texts f32_to_f64 documents =
        .error (EmbeddingError.ProviderError msg) ∧ msg ≠ "") := by
  have h := EmbeddingModel.embed_texts_eq_error f32_to_f64 self documents e herr
  refine ⟨h, ?_, ?_⟩
  · intro rs hrs
    rw [h] at hrs
    exact Except.noConfusion hrs
  · intro hne
    exact ⟨e.message, h, hne⟩

/-- Claim C4: `embed_texts` on the empty batch returns `Ok []` whenever the
backend call on the empty batch does not error (whatever vector list the
backend returns, zipping with the empty document list yields no results). -/
theorem embed_texts_empty_input {F32 F64 : Type}
    (f32_to_f64 : F32 → F64) (self : EmbeddingModel F32)
    (vs : List (List F32)) (hok : self.embedder.embed [] = .ok vs) :
    self.embed_texts f32_to_f64 [] = .ok [] := by
  rw [EmbeddingModel.embed_texts_eq_ok f32_to_f64 self [] vs hok]
  simp

/-- Claim C5: on every successful call, the i-th returned vector is exactly
the element-wise widening of the i-th backend vector: equal as a mapped
list, of the same length, and with j-th element the widened j-th backend
element. -/
theorem embed_texts_widens_elementwise {F32 F64 : Type}
    (f32_to_f64 : F32 → F64) (self : EmbeddingModel F32)
    (documents : List String) (vs : List (List F32))
    (hok : self.embedder.embed documents = .ok vs) :
    ∃ rs, self.embed_texts f32_to_f64 documents = .ok rs ∧
      ∀ i (h1 : i < rs.length) (h2 : i < vs.length),
        (rs.get ⟨i, h1⟩).vec = (vs.get ⟨i, h2⟩).map f32_to_f64 ∧
        (rs.get ⟨i, h1⟩).vec.length = (vs.get ⟨i, h2⟩).length ∧
        ∀ j (hj : j < (vs.get ⟨i, h2⟩).length)
          (hj2 : j < (rs.get ⟨i, h1⟩).vec.length),
          (rs.get ⟨i, h1⟩).vec.get ⟨j, hj2⟩ =
            f32_to_f64 ((vs.get ⟨i, h2⟩).get ⟨j, hj⟩) := by
  rw [EmbeddingModel.embed_texts_eq_ok f32_to_f64 self documents vs hok]
  refine ⟨_, rfl, ?_⟩
  intro i h1 h2
  simp [List.get_eq_getElem, List.getElem_map, List.getElem_zip]

/-- Claim C10: when the backend returns M vectors for N documents, the
pairing is by zip, so `embed_texts` silently returns `Ok` with exactly
min(N, M) results — surplus documents or surplus vectors are dropped
without any error — and the kept results carry the first min(N, M)
documents in order. -/
theorem embed_texts_zip_truncation {F32 F64 : Type}
    (f32_to_f64 : F32 → F64) (self : EmbeddingModel F32)
    (documents : List String) (vs : List (List F32))
    (hok : self.embedder.embed documents = .ok vs) :
    ∃ rs, self.embed_texts f32_to_f64 documents = .ok rs ∧
      rs.length = min documents.length vs.length ∧
      ∀ i (h1 : i < rs.length) (h2 : i < documents.length),
        (rs.get ⟨i, h1⟩).document = documents.get ⟨i, h2⟩ := by
  rw [EmbeddingModel.embed_texts_eq_ok f32_to_f64 self documents vs hok]
  refine ⟨_, rfl, by simp [List.length_zip], ?_⟩
  intro i h1 h2
  simp [List.getElem_map, List.getElem_zip]

/-- Claim C6: whenever `Client::embedding_model` returns a model object
(backend construction succeeded), that object's `ndims()` is exactly the
registry value `fetch_model_ndims(model)`, and its identifier is the
requested model. -/
theorem embedding_model_uses_registry_ndims {F32 : Type} (c : Client)
    (try_new : InitOptions → Except BackendError (TextEmbedding F32))
    (model : FastembedModel) (m : EmbeddingModel F32)
    (h : c.embedding_model try_new model = some m) :
    m.ndims = fetch_model_ndims model ∧ m.model = model := by
  unfold Client.embedding_model EmbeddingModel.new at h
  cases htn : try_new ((InitOptions.new model).with_show_download_progress true) with
  | error e => rw [htn] at h; exact Option.noConfusion h
  | ok t =>
    rw [htn] at h
    cases h
    exact ⟨rfl, rfl⟩

/-- Claim C7: `new_from_user_defined` bypasses the registry: whenever it
returns a model object, that object's `ndims()` equals the caller-supplied
`ndims` (for every value, with no validation) and its identifier is
`model_info.model`. -/
theorem new_from_user_defined_trusts_caller {F32 UDM : Type}
    (try_new_ud : UDM → InitOptionsUserDefined →
      Except BackendError (TextEmbedding F32))
    (user_defined_model : UDM) (ndims : Nat) (model_info : ModelInfo)
    (m : EmbeddingModel F32)
    (h : EmbeddingModel.new_from_user_defined try_new_ud user_defined_model
          ndims model_info = some m) :
    m.ndims = ndims ∧ m.model = model_info.model := by
  unfold EmbeddingModel.new_from_user_defined at h
  cases htn : try_new_ud user_defined_model InitOptionsUserDefined.default with
  | error e => rw [htn] at h; exact Option.noConfusion h
  | ok t =>
    rw [htn] at h
    cases h
    exact ⟨rfl, rfl⟩

/-- Claim C8: `MAX_DOCUMENTS` is declared as 1024, yet `embed_texts`
enforces nothing: even a batch strictly larger than 1024 documents is
passed to the backend unmodified, and (when the backend answers with a
parallel vector list) every one of the N documents comes back embedded —
no size error, no splitting, no truncation by this component. -/
theorem MAX_DOCUMENTS_not_enforced {F32 F64 : Type}
    (f32_to_f64 : F32 → F64) (self : EmbeddingModel F32)
    (documents : List String) (vs : List (List F32))
    (hover : documents.length > EmbeddingModel.MAX_DOCUMENTS)
    (hok : self.embedder.embed documents = .ok vs)
    (hlen : vs.length = documents.length) :
    EmbeddingModel.MAX_DOCUMENTS = 1024 ∧
    documents.length > 1024 ∧
    ∃ rs, self.embed_texts f32_to_f64 documents = .ok rs ∧
      rs.length = documents.length ∧
      rs.map Embedding.document = documents := by
  rw [EmbeddingModel.embed_texts_eq_ok f32_to_f64 self documents vs hok]
  refine ⟨rfl, hover, _, rfl, by simp [List.length_zip, hlen], ?_⟩
  rw [List.map_map]
  exact List.map_fst_zip documents vs (le_of_eq hlen.symm)

/-- Claim C9: model construction never returns an error value: `new`
yields `none` (our model of the `.unwrap()` panic) exactly when the
backend's `try_new` on the adapter-built options failed, and on every
`some` (non-panicking) return the backend construction succeeded and its
handle, the model identifier and the dimensionality are stored; likewise
for `new_from_user_defined` with default user-defined options. -/
theorem construction_failure_is_panic {F32 UDM : Type}
    (try_new : InitOptions → Except BackendError (TextEmbedding F32))
    (try_new_ud : UDM → InitOptionsUserDefined →
      Except BackendError (TextEmbedding F32))
    (model : FastembedModel) (ndims : Nat) (udm : UDM) (mi : ModelInfo) :
    (EmbeddingModel.new try_new model ndims = none ↔
      ∃ e, try_new ((InitOptions.new model).with_show_download_progress true) =
        .error e) ∧
    (∀ m, EmbeddingModel.new try_new model ndims = some m →
      ∃ t, try_new ((InitOptions.new model).with_show_download_progress true) =
          .ok t ∧
        m.embedder = t ∧ m.model = model ∧ m.ndims = ndims) ∧
    (EmbeddingModel.new_from_user_defined try_new_ud udm ndims mi = none ↔
      ∃ e, try_new_ud udm InitOptionsUserDefined.default = .error e) ∧
    (∀ m, EmbeddingModel.new_from_user_defined try_new_ud udm ndims mi = some m →
      ∃ t, try_new_ud udm InitOptionsUserDefined.default = .ok t ∧
        m.embedder = t ∧ m.model = mi.model ∧ m.ndims = ndims) := by
  unfold EmbeddingModel.new EmbeddingModel.new_from_user_defined
  cases htn : try_new ((InitOptions.new model).with_show_download_progress true) with
  | error e =>
    cases htnu : try_new_ud udm InitOptionsUserDefined.default with
    | error e2 => simp [htn, htnu]
    | ok t2 => simp [htn, htnu]
  | ok t =>
    cases htnu : try_new_ud udm InitOptionsUserDefined.default with
    | error e2 => simp [htn, htnu]
    | ok t2 => simp [htn, htnu]

/-- A concrete backend for evaluating the theorems: the opaque native float
space is instantiated with `Nat` and every document is embedded as the
two-element vector `[7, 8]`. -/
def demoEmbedder : TextEmbedding Nat :=
  { embed := fun docs => .ok (docs.map (fun _ => [7, 8])) }

/-- A concrete model object over `demoEmbedder`, declaring width 2. -/
def demoModel : EmbeddingModel Nat :=
  { embedder := demoEmbedder, model := FastembedModel.AllMiniLML6V2, ndims := 2 }

/-- A concrete backend whose embed call always fails. -/
def demoFailEmbedder : TextEmbedding Nat :=
  { embed := fun _ => .error { message := "backend failure" } }

/-- A concrete model object over the failing backend. -/
def demoFailModel : EmbeddingModel Nat :=
  { embedder := demoFailEmbedder, model := FastembedModel.AllMiniLML6V2, ndims := 384 }

/-- A concrete backend returning a single vector whatever the batch size
(a document/vector count mismatch). -/
def demoOneVecEmbedder : TextEmbedding Nat :=
  { embed := fun _ => .ok [[1, 2, 3]] }

/-- A concrete model object over the mismatching backend. -/
def demoOneVecModel : EmbeddingModel Nat :=
  { embedder := demoOneVecEmbedder, model := FastembedModel.AllMiniLML6V2, ndims := 3 }

/-- A concrete successful `try_new` outcome. -/
def demoTryNew : InitOptions → Except BackendError (TextEmbedding Nat) :=
  fun _ => .ok demoEmbedder

/-- A concrete successful `try_new_from_user_defined` outcome (the opaque
user-defined model type instantiated with `Unit`). -/
def demoTryNewUD : Unit → InitOptionsUserDefined → Except BackendError (TextEmbedding Nat) :=
  fun _ _ => .ok demoEmbedder

/-- A concrete failing `try_new` outcome. -/
def demoFailTryNew : InitOptions → Except BackendError (TextEmbedding Nat) :=
  fun _ => .error { message := "model load failed" }

/-- Witness for C1: the two-document batch over `demoEmbedder`. -/
theorem embed_texts_preserves_count_order_ndims_witness :
    ∃ rs, demoModel.embed_texts (fun n : Nat => (n : Int)) ["hello", "world"] = .ok rs ∧
      rs.length = (["hello", "world"] : List String).length ∧
      rs.map Embedding.document = ["hello", "world"] ∧
      ∀ r ∈ rs, r.vec.length = demoModel.ndims :=
  embed_texts_preserves_count_order_ndims (fun n : Nat => (n : Int)) demoModel
    ["hello", "world"] [[7, 8], [7, 8]] rfl (by decide) (by decide)

/-- Witness for C3: a one-document batch over the failing backend. -/
theorem embed_texts_provider_error_witness :
    demoFailModel.embed_texts (fun n : Nat => (n : Int)) ["doc"] =
      .error (EmbeddingError.ProviderError
        ({ message := "backend failure" } : BackendError).message) ∧
    (∀ rs, demoFailModel.embed_texts (fun n : Nat => (n : Int)) ["doc"] ≠ .ok rs) ∧
    (({ message := "backend failure" } : BackendError).message ≠ "" →
      ∃ msg, demoFailModel.embed_texts (fun n : Nat => (n : Int)) ["doc"] =
        .error (EmbeddingError.ProviderError msg) ∧ msg ≠ "") :=
  embed_texts_provider_error (fun n : Nat => (n : Int)) demoFailModel ["doc"]
    { message := "backend failure" } rfl

/-- Witness for C4: the empty batch over `demoEmbedder`. -/
theorem embed_texts_empty_input_witness :
    demoModel.embed_texts (fun n : Nat => (n : Int)) [] = .ok [] :=
  embed_texts_empty_input (fun n : Nat => (n : Int)) demoModel [] rfl

/-- Witness for C5: a one-document batch over `demoEmbedder`. -/
theorem embed_texts_widens_elementwise_witness :
    ∃ rs, demoModel.embed_texts (fun n : Nat => (n : Int)) ["a"] = .ok rs ∧
      ∀ i (h1 : i < rs.length) (h2 : i < ([[7, 8]] : List (List Nat)).length),
        (rs.get ⟨i, h1⟩).vec =
          (([[7, 8]] : List (List Nat)).get ⟨i, h2⟩).map (fun n : Nat => (n : Int)) ∧
        (rs.get ⟨i, h1⟩).vec.length = (([[7, 8]] : List (List Nat)).get ⟨i, h2⟩).length ∧
        ∀ j (hj : j < (([[7, 8]] : List (List Nat)).get ⟨i, h2⟩).length)
          (hj2 : j < (rs.get ⟨i, h1⟩).vec.length),
          (rs.get ⟨i, h1⟩).vec.get ⟨j, hj2⟩ =
            (fun n : Nat => (n : Int)) ((([[7, 8]] : List (List Nat)).get ⟨i, h2⟩).get ⟨j, hj⟩) :=
  embed_texts_widens_elementwise (fun n : Nat => (n : Int)) demoModel ["a"] [[7, 8]] rfl

/-- Witness for C10: two documents and a single backend vector, yielding
min(2, 1) = 1 result. -/
theorem embed_texts_zip_truncation_witness :
    ∃ rs, demoOneVecModel.embed_texts (fun n : Nat => (n : Int)) ["a", "b"] = .ok rs ∧
      rs.length = min (["a", "b"] : List String).length ([[1, 2, 3]] : List (List Nat)).length ∧
      ∀ i (h1 : i < rs.length) (h2 : i < (["a", "b"] : List String).length),
        (rs.get ⟨i, h1⟩).document = (["a", "b"] : List String).get ⟨i, h2⟩ :=
  embed_texts_zip_truncation (fun n : Nat => (n : Int)) demoOneVecModel ["a", "b"] [[1, 2, 3]] rfl

/-- Witness for C6: a successful registry-based construction for
`AllMiniLML6V2` yields stored ndims 384. -/
theorem embedding_model_uses_registry_ndims_witness :
    ({ embedder := demoEmbedder, model := FastembedModel.AllMiniLML6V2, ndims := 384 } :
        EmbeddingModel Nat).ndims = fetch_model_ndims FastembedModel.AllMiniLML6V2 ∧
    ({ embedder := demoEmbedder, model := FastembedModel.AllMiniLML6V2, ndims := 384 } :
        EmbeddingModel Nat).model = FastembedModel.AllMiniLML6V2 :=
  embedding_model_uses_registry_ndims Client.new demoTryNew FastembedModel.AllMiniLML6V2 _ rfl

/-- Witness for C7: caller-supplied ndims 512 is stored unvalidated even
though the demo backend emits two-element vectors. -/
theorem new_from_user_defined_trusts_caller_witness :
    ({ embedder := demoEmbedder, model := FastembedModel.ClipVitB32, ndims := 512 } :
        EmbeddingModel Nat).ndims = 512 ∧
    ({ embedder := demoEmbedder, model := FastembedModel.ClipVitB32, ndims := 512 } :
        EmbeddingModel Nat).model = ({ model := FastembedModel.ClipVitB32 } : ModelInfo).model :=
  new_from_user_defined_trusts_caller demoTryNewUD () 512
    { model := FastembedModel.ClipVitB32 } _ rfl

/-- Witness for C8: a batch of 1025 documents, one over the declared
maximum, is embedded whole. -/
theorem MAX_DOCUMENTS_not_enforced_witness :
    EmbeddingModel.MAX_DOCUMENTS = 1024 ∧
    (List.replicate 1025 "x").length > 1024 ∧
    ∃ rs, demoModel.embed_texts (fun n : Nat => (n : Int)) (List.replicate 1025 "x") = .ok rs ∧
      rs.length = (List.replicate 1025 "x").length ∧
      rs.map Embedding.document = List.replicate 1025 "x" :=
  MAX_DOCUMENTS_not_enforced (fun n : Nat => (n : Int)) demoModel (List.replicate 1025 "x")
    ((List.replicate 1025 "x").map (fun _ => [7, 8]))
    (by norm_num [EmbeddingModel.MAX_DOCUMENTS]) rfl (List.length_map _ _)

/-- Witness for C9: a failing `try_new` makes `new` return `none` (the
modelled panic), never an error value. -/
theorem construction_failure_is_panic_witness :
    EmbeddingModel.new demoFailTryNew FastembedModel.AllMiniLML6V2 384 = none :=
  (construction_failure_is_panic demoFailTryNew demoTryNewUD FastembedModel.AllMiniLML6V2 384 ()
      { model := FastembedModel.AllMiniLML6V2 }).1.mpr
    ⟨{ message := "model load failed" }, rfl⟩
